import Mathlib

/-!
Verification of the FastAPI + Google Gemini service (`src/main.py`).

The service exposes two POST endpoints:
  * `/generate_text`  — forwards a text prompt to the generative model;
  * `/image_to_text`  — downloads an image URL into a temporary file,
    decodes it with PIL, and asks the model to caption it.

We embed the two handlers shallowly.  Effects are made explicit:
  * the filesystem is a list of `(path, content)` pairs;
  * each attempted URL fetch and each model-client invocation is recorded
    in a trace, so "never calls the client" / "no retry" are provable;
  * Python exceptions become an `Except PyExc` result, with `PyExc`
    naming the concrete exception classes the libraries raise, and a map
    `errorKind` giving the spec's error taxonomy for each of them.

External collaborators (urllib's retrieval, PIL's decoding, the Gemini
model) are parameters (`Env`, `ModelClient`): the handlers are proved
correct for every behaviour of those collaborators.
-/

namespace FastapiGemini

/-- Raw bytes, as downloaded by `urllib.request.urlretrieve`. -/
abbrev Bytes := List Nat

/-- A decoded PIL image (the result of a successful `Image.open`). -/
structure Img where
  data : Bytes
deriving DecidableEq, Repr

/-- The Python exceptions the handlers can let escape:
pydantic's request-validation failure, urllib's fetch failure,
PIL's decode failure, and a failure inside `model.generate_content`. -/
inductive PyExc
  | requestValidationError
  | urlError
  | imageError
  | googleError
deriving DecidableEq, Repr

/-- The spec's error taxonomy. -/
inductive ErrKind
  | ValidationError
  | FetchError
  | DecodeError
  | ExternalServiceError
deriving DecidableEq, Repr

/-- Which spec error kind each escaping Python exception corresponds to. -/
def errorKind : PyExc → ErrKind
  | .requestValidationError => .ValidationError
  | .urlError => .FetchError
  | .imageError => .DecodeError
  | .googleError => .ExternalServiceError

/-- `class TextInput(BaseModel): prompt: str` -/
structure TextInput where
  prompt : String
deriving DecidableEq, Repr

/-- `class ImageInput(BaseModel): url: str` -/
structure ImageInput where
  url : String
deriving DecidableEq, Repr

/-- The JSON response body `{"generated_text": ...}`. -/
structure Response where
  generated_text : String
deriving DecidableEq, Repr

/-- One recorded invocation of the model client
(`model.generate_content(...)`). -/
inductive ClientCall
  | genText (prompt : String)
  | genMulti (instruction : String) (img : Img)
deriving DecidableEq, Repr

/-- Observable world state threaded through a handler: the files on disk,
the URLs a retrieval was attempted for, and the model-client call trace. -/
structure World where
  fs : List (String × Bytes)
  fetches : List String
  calls : List ClientCall
deriving DecidableEq, Repr

/-- Does a file with this path exist on disk? -/
def fileExists (fs : List (String × Bytes)) (path : String) : Bool :=
  fs.any (fun e => e.1 = path)

/-- Overwrite the content of an existing file. -/
def writeFile (fs : List (String × Bytes)) (path : String) (content : Bytes) :
    List (String × Bytes) :=
  fs.map (fun e => if e.1 = path then (path, content) else e)

/-- Behaviour of the external collaborators used by `image_to_text`:
`fetch` is `urllib.request.urlretrieve` (per URL: the downloaded bytes, or
a raised `URLError`/`ValueError`); `decode` is `PIL.Image.open` (per byte
string: a decoded image, or a raised `UnidentifiedImageError`). -/
structure Env where
  fetch : String → Except Unit Bytes
  decode : Bytes → Except Unit Img

/-- Behaviour of `model.generate_content`: for a text-only prompt and for
a `[instruction, image]` multimodal input, either the generated text
(`response.text`) or a raised provider error. -/
structure ModelClient where
  generateText : String → Except Unit String
  generateMultimodal : String → Img → Except Unit String

/-- Pydantic validation of the `/generate_text` request body: the field
`prompt` must be present (`none` = missing → 422); any string value,
including the empty string, is accepted. -/
def parseTextInput (body : Option String) : Except PyExc TextInput :=
  match body with
  | none => .error .requestValidationError
  | some s => .ok ⟨s⟩

/-- Pydantic validation of the `/image_to_text` request body: the field
`url` must be present; since the model declares a plain `str`, any string
value is accepted without URL well-formedness checks. -/
def parseImageInput (body : Option String) : Except PyExc ImageInput :=
  match body with
  | none => .error .requestValidationError
  | some s => .ok ⟨s⟩

/-- The handler body of `POST /generate_text`:
`response = model.generate_content(input.prompt)` followed by
`return {"generated_text": response.text}`.  The client call is recorded
in the trace; a provider failure escapes as `googleError`. -/
def generate_text (client : ModelClient) (input : TextInput) (w : World) :
    Except PyExc Response × World :=
  let w1 : World := { w with calls := w.calls ++ [ClientCall.genText input.prompt] }
  match client.generateText input.prompt with
  | .error _ => (.error .googleError, w1)
  | .ok t => (.ok ⟨t⟩, w1)

/-- The fixed captioning instruction sent with every image:
`"What is in this photo?"` in `model.generate_content([...])`. -/
def captionInstruction : String := "What is in this photo?"

/-- The handler body of `POST /image_to_text`:

```
with tempfile.NamedTemporaryFile(delete=False) as temp_file:
    urllib.request.urlretrieve(input.url, temp_file.name)
    img = Image.open(temp_file.name)
    response = model.generate_content(["What is in this photo?", img])
temp_file.close()
return {"generated_text": response.text}
```

`tmpName` is the fresh path chosen by `NamedTemporaryFile`; the file is
created empty on disk at that point.  Because `delete=False`, leaving the
`with` block (normally or via an exception) only closes the file object
and never unlinks the path, and no `os.remove` appears in the handler, so
the file stays on disk on every exit path.  `temp_file.close()` is a
no-op on an already-closed file. -/
def image_to_text (env : Env) (client : ModelClient) (tmpName : String)
    (input : ImageInput) (w : World) : Except PyExc Response × World :=
  let w1 : World := { w with fs := w.fs ++ [(tmpName, [])] }
  let w2 : World := { w1 with fetches := w1.fetches ++ [input.url] }
  match env.fetch input.url with
  | .error _ => (.error .urlError, w2)
  | .ok bytes =>
    let w3 : World := { w2 with fs := writeFile w2.fs tmpName bytes }
    match env.decode bytes with
    | .error _ => (.error .imageError, w3)
    | .ok img =>
      let w4 : World :=
        { w3 with calls := w3.calls ++ [ClientCall.genMulti captionInstruction img] }
      match client.generateMultimodal captionInstruction img with
      | .error _ => (.error .googleError, w4)
      | .ok t => (.ok ⟨t⟩, w4)

/-- The full `POST /generate_text` endpoint: FastAPI validates the body
against `TextInput` before the handler runs; a validation failure returns
422 without invoking the handler. -/
def post_generate_text (client : ModelClient) (body : Option String)
    (w : World) : Except PyExc Response × World :=
  match parseTextInput body with
  | .error e => (.error e, w)
  | .ok input => generate_text client input w

/-- The full `POST /image_to_text` endpoint: FastAPI validates the body
against `ImageInput` before the handler runs. -/
def post_image_to_text (env : Env) (client : ModelClient) (tmpName : String)
    (body : Option String) (w : World) : Except PyExc Response × World :=
  match parseImageInput body with
  | .error e => (.error e, w)
  | .ok input => image_to_text env client tmpName input w

/-! ### Startup configuration (`genai.configure`, lines 7–8)

`genai.configure(api_key=os.getenv("GENERATIVE_AI_KEY"))` runs at import
time.  `os.getenv` returns `None` when the variable is unset, and the
google-generativeai client stores the (possibly absent) credential without
validating it; client construction is lazy, so a missing key only fails
when the first model call is made. -/

/-- The process-wide configuration stored by `genai.configure`. -/
structure GenaiConfig where
  api_key : Option String
deriving DecidableEq, Repr

/-- `genai.configure(api_key=...)`: stores the credential, absent or not,
and never fails at configuration time. -/
def configure (key : Option String) : GenaiConfig := ⟨key⟩

/-- `genai.GenerativeModel(model_name="gemini-1.5-flash-latest")` together
with the process-wide configuration it will use. -/
structure GenerativeModel where
  model_name : String
  config : GenaiConfig
deriving DecidableEq, Repr

/-- The module-level startup sequence of `src/main.py` (lines 7–8), run
with whatever `os.getenv("GENERATIVE_AI_KEY")` returned. -/
def startup (envKey : Option String) : GenerativeModel :=
  { model_name := "gemini-1.5-flash-latest", config := configure envKey }

/-- A model call through the lazily-constructed client: with an absent
credential the client construction fails at this point (a provider-side
authentication error); with a credential present the provider (`provider`)
answers. -/
def generate_content (m : GenerativeModel) (prompt : String)
    (provider : String → String) : Except PyExc String :=
  match m.config.api_key with
  | none => .error .googleError
  | some _ => .ok (provider prompt)

/-! ### Concrete collaborators for evaluation -/

/-- A deterministic mock model client: echoes the prompt for text
generation and returns a fixed caption for multimodal input. -/
def mockClient : ModelClient where
  generateText := fun p => .ok ("echo:" ++ p)
  generateMultimodal := fun _ _ => .ok ("A cat sitting on a chair.")

/-- A model client whose provider calls always fail. -/
def failingClient : ModelClient where
  generateText := fun _ => .error ()
  generateMultimodal := fun _ _ => .error ()

/-- An environment where every URL resolves to the bytes `[1, 2, 3]` and
decoding succeeds. -/
def okEnv : Env where
  fetch := fun _ => .ok [1, 2, 3]
  decode := fun b => .ok ⟨b⟩

/-- An environment where every URL is unreachable. -/
def unreachableEnv : Env where
  fetch := fun _ => .error ()
  decode := fun b => .ok ⟨b⟩

/-- An environment where fetching succeeds but the bytes are not a valid
image. -/
def nonImageEnv : Env where
  fetch := fun _ => .ok [0]
  decode := fun _ => .error ()

/-- The empty initial world: no files, no fetches, no client calls. -/
def w0 : World := ⟨[], [], []⟩

/-! ### Filesystem helper lemmas -/

/-- A freshly appended file exists. -/
theorem fileExists_append_self (l : List (String × Bytes)) (t : String)
    (c : Bytes) : fileExists (l ++ [(t, c)]) t = true := by
  simp [fileExists]

/-- Overwriting a file's content preserves existence of the path. -/
theorem fileExists_writeFile (l : List (String × Bytes)) (t : String)
    (b : Bytes) (h : fileExists l t = true) :
    fileExists (writeFile l t b) t = true := by
  simp only [fileExists, writeFile, List.any_map, List.any_eq_true] at h ⊢
  obtain ⟨e, he, hp⟩ := h
  exact ⟨e, he, by simp_all⟩

/-! ### Evaluation lemmas: the result of each handler on each path -/

/-- `post_generate_text` with the field present delegates to the handler. -/
theorem post_generate_text_some (client : ModelClient) (p : String)
    (w : World) : post_generate_text client (some p) w
      = generate_text client ⟨p⟩ w := rfl

/-- `post_image_to_text` with the field present delegates to the handler. -/
theorem post_image_to_text_some (env : Env) (client : ModelClient)
    (tmpName p : String) (w : World) :
    post_image_to_text env client tmpName (some p) w
      = image_to_text env client tmpName ⟨p⟩ w := rfl

/-- Whatever the client answers, `generate_text` records exactly one
client call and touches nothing else in the world. -/
theorem generate_text_world (client : ModelClient) (input : TextInput)
    (w : World) : (generate_text client input w).2
      = { w with calls := w.calls ++ [ClientCall.genText input.prompt] } := by
  unfold generate_text
  cases client.generateText input.prompt <;> rfl

/-- Evaluation of `generate_text` when the provider answers. -/
theorem generate_text_ok {client : ModelClient} {input : TextInput}
    {w : World} {s : String}
    (hs : client.generateText input.prompt = Except.ok s) :
    generate_text client input w = (Except.ok ⟨s⟩,
      { w with calls := w.calls ++ [ClientCall.genText input.prompt] }) := by
  simp [generate_text, hs]

/-- Evaluation of `generate_text` when the provider call fails. -/
theorem generate_text_error {client : ModelClient} {input : TextInput}
    {w : World} {e : Unit}
    (hs : client.generateText input.prompt = Except.error e) :
    generate_text client input w = (Except.error PyExc.googleError,
      { w with calls := w.calls ++ [ClientCall.genText input.prompt] }) := by
  simp [generate_text, hs]

/-- Evaluation of `image_to_text` when the URL fetch fails: the exception
escapes with the created temporary file still on disk. -/
theorem image_to_text_fetch_error {env : Env} {client : ModelClient}
    {tmpName : String} {input : ImageInput} {w : World} {e : Unit}
    (hF : env.fetch input.url = Except.error e) :
    image_to_text env client tmpName input w
      = (Except.error PyExc.urlError,
         ⟨w.fs ++ [(tmpName, [])], w.fetches ++ [input.url], w.calls⟩) := by
  simp [image_to_text, hF]

/-- Evaluation of `image_to_text` when the bytes are not a valid image. -/
theorem image_to_text_decode_error {env : Env} {client : ModelClient}
    {tmpName : String} {input : ImageInput} {w : World} {bytes : Bytes}
    {e : Unit} (hF : env.fetch input.url = Except.ok bytes)
    (hD : env.decode bytes = Except.error e) :
    image_to_text env client tmpName input w
      = (Except.error PyExc.imageError,
         ⟨writeFile (w.fs ++ [(tmpName, [])]) tmpName bytes,
          w.fetches ++ [input.url], w.calls⟩) := by
  simp [image_to_text, hF, hD]

/-- Evaluation of `image_to_text` when the provider call fails. -/
theorem image_to_text_model_error {env : Env} {client : ModelClient}
    {tmpName : String} {input : ImageInput} {w : World} {bytes : Bytes}
    {img : Img} {e : Unit} (hF : env.fetch input.url = Except.ok bytes)
    (hD : env.decode bytes = Except.ok img)
    (hM : client.generateMultimodal captionInstruction img = Except.error e) :
    image_to_text env client tmpName input w
      = (Except.error PyExc.googleError,
         ⟨writeFile (w.fs ++ [(tmpName, [])]) tmpName bytes,
          w.fetches ++ [input.url],
          w.calls ++ [ClientCall.genMulti captionInstruction img]⟩) := by
  simp [image_to_text, hF, hD, hM]

/-- Evaluation of `image_to_text` on the success path. -/
theorem image_to_text_success {env : Env} {client : ModelClient}
    {tmpName : String} {input : ImageInput} {w : World} {bytes : Bytes}
    {img : Img} {t : String} (hF : env.fetch input.url = Except.ok bytes)
    (hD : env.decode bytes = Except.ok img)
    (hM : client.generateMultimodal captionInstruction img = Except.ok t) :
    image_to_text env client tmpName input w
      = (Except.ok ⟨t⟩,
         ⟨writeFile (w.fs ++ [(tmpName, [])]) tmpName bytes,
          w.fetches ++ [input.url],
          w.calls ++ [ClientCall.genMulti captionInstruction img]⟩) := by
  simp [image_to_text, hF, hD, hM]

/-- On every path — fetch failure included — `image_to_text` records
exactly one fetch attempt, for the request's URL. -/
theorem image_to_text_fetches (env : Env) (client : ModelClient)
    (tmpName : String) (input : ImageInput) (w : World) :
    (image_to_text env client tmpName input w).2.fetches
      = w.fetches ++ [input.url] := by
  cases hF : env.fetch input.url with
  | error e => rw [image_to_text_fetch_error hF]
  | ok bytes =>
    cases hD : env.decode bytes with
    | error e => rw [image_to_text_decode_error hF hD]
    | ok img =>
      cases hM : client.generateMultimodal captionInstruction img with
      | error e => rw [image_to_text_model_error hF hD hM]
      | ok t => rw [image_to_text_success hF hD hM]

/-! ### Claim theorems -/

/-- C1: the claim says the temporary file is removed before `image_to_text`
returns on every exit path.  The code does the opposite: it is created with
`delete=False` and never unlinked, so on every exit path — success, fetch
failure, decode failure, provider failure — the temporary file still exists
on disk when the call returns.  This theorem evaluates the code on all
paths at once: for every environment, client, input and initial world, the
temporary path exists in the resulting filesystem. -/
theorem C1_temp_file_never_removed (env : Env) (client : ModelClient)
    (tmpName : String) (input : ImageInput) (w : World) :
    fileExists ((image_to_text env client tmpName input w).2.fs) tmpName = true := by
  cases hF : env.fetch input.url with
  | error e =>
    rw [image_to_text_fetch_error hF]
    exact fileExists_append_self w.fs tmpName []
  | ok bytes =>
    cases hD : env.decode bytes with
    | error e =>
      rw [image_to_text_decode_error hF hD]
      exact fileExists_writeFile _ tmpName bytes (fileExists_append_self w.fs tmpName [])
    | ok img =>
      cases hM : client.generateMultimodal captionInstruction img with
      | error e =>
        rw [image_to_text_model_error hF hD hM]
        exact fileExists_writeFile _ tmpName bytes (fileExists_append_self w.fs tmpName [])
      | ok t =>
        rw [image_to_text_success hF hD hM]
        exact fileExists_writeFile _ tmpName bytes (fileExists_append_self w.fs tmpName [])

/-- C2 counterexample: the claim says an empty `prompt` fails with
`ValidationError` and the client is never invoked.  At the concrete request
body `{"prompt": ""}` with the echoing mock client, the call instead
succeeds and the client is invoked once with the empty prompt: pydantic's
plain `prompt: str` accepts the empty string. -/
theorem C2_empty_prompt_counterexample :
    (post_generate_text mockClient (some ("")) w0).1 = Except.ok ⟨"echo:"⟩ ∧
    (post_generate_text mockClient (some ("")) w0).2.calls
      = [ClientCall.genText ("")] := by
  exact ⟨rfl, rfl⟩

/-- C2 (amended): a *missing* `prompt` fails with
`requestValidationError` (the spec's `ValidationError`) and the handler —
hence the Model Client — is never invoked, the world unchanged; an
*empty-string* prompt, however, passes validation and is forwarded to the
Model Client. -/
theorem C2_missing_prompt_validation (client : ModelClient) (w : World) :
    post_generate_text client none w
      = (Except.error PyExc.requestValidationError, w) ∧
    errorKind PyExc.requestValidationError = ErrKind.ValidationError ∧
    (post_generate_text client (some ("")) w).2.calls
      = w.calls ++ [ClientCall.genText ("")] := by
  refine ⟨rfl, rfl, ?_⟩
  rw [post_generate_text_some, generate_text_world]

/-- C3: for every non-empty prompt, if the Model Client's generate
operation returns a string for that prompt, `generate_text` returns a
response whose `generated_text` field is exactly that string, unmodified. -/
theorem C3_generated_text_verbatim (client : ModelClient) (p s : String)
    (w : World) (hp : p ≠ "") (hs : client.generateText p = Except.ok s) :
    (post_generate_text client (some p) w).1 = Except.ok ⟨s⟩ := by
  unfold post_generate_text parseTextInput generate_text
  simp [hs]

/-- C3 witness: the scenario from the spec, prompt `"Say hello"` with a
mock client; the hypotheses hold at this input and the response carries the
client's string verbatim. -/
theorem C3_witness :
    ("Say hello" : String) ≠ "" ∧
    mockClient.generateText ("Say hello") = Except.ok ("echo:Say hello") ∧
    (post_generate_text mockClient (some ("Say hello")) w0).1
      = Except.ok ⟨"echo:Say hello"⟩ :=
  ⟨by decide, rfl,
    C3_generated_text_verbatim mockClient ("Say hello") ("echo:Say hello") w0
      (by decide) rfl⟩

/-- C4: when the URL is unreachable the escaping exception is `urlError`
(the spec's `FetchError`), as claimed — but, contrary to the claim's
"no temporary file remains on disk", the code evaluates to a world where
the temporary file still exists (created by
`NamedTemporaryFile(delete=False)` and never unlinked). -/
theorem C4_fetch_error_file_remains (env : Env) (client : ModelClient)
    (tmpName : String) (input : ImageInput) (w : World) (e : Unit)
    (hF : env.fetch input.url = Except.error e) :
    (image_to_text env client tmpName input w).1
      = Except.error PyExc.urlError ∧
    errorKind PyExc.urlError = ErrKind.FetchError ∧
    fileExists ((image_to_text env client tmpName input w).2.fs) tmpName
      = true := by
  rw [image_to_text_fetch_error hF]
  exact ⟨rfl, rfl, fileExists_append_self w.fs tmpName []⟩

/-- C4 witness: an unreachable URL with the always-failing fetch
environment; the call fails with `urlError` and the temporary file
`tmp1` is still on disk. -/
theorem C4_witness :
    unreachableEnv.fetch ("http://unreachable.invalid/cat.jpg")
      = Except.error () ∧
    ((image_to_text unreachableEnv mockClient ("tmp1")
        ⟨"http://unreachable.invalid/cat.jpg"⟩ w0).1
      = Except.error PyExc.urlError ∧
    errorKind PyExc.urlError = ErrKind.FetchError ∧
    fileExists ((image_to_text unreachableEnv mockClient ("tmp1")
        ⟨"http://unreachable.invalid/cat.jpg"⟩ w0).2.fs) ("tmp1") = true) :=
  ⟨rfl, C4_fetch_error_file_remains unreachableEnv mockClient ("tmp1")
    ⟨"http://unreachable.invalid/cat.jpg"⟩ w0 () rfl⟩

/-- C5: when the fetched bytes are not a valid image the escaping
exception is `imageError` (the spec's `DecodeError`), as claimed — but,
contrary to the claim's "no temporary file remains on disk", the
temporary file (holding the fetched bytes) still exists afterwards. -/
theorem C5_decode_error_file_remains (env : Env) (client : ModelClient)
    (tmpName : String) (input : ImageInput) (w : World) (bytes : Bytes)
    (e : Unit) (hF : env.fetch input.url = Except.ok bytes)
    (hD : env.decode bytes = Except.error e) :
    (image_to_text env client tmpName input w).1
      = Except.error PyExc.imageError ∧
    errorKind PyExc.imageError = ErrKind.DecodeError ∧
    fileExists ((image_to_text env client tmpName input w).2.fs) tmpName
      = true := by
  rw [image_to_text_decode_error hF hD]
  exact ⟨rfl, rfl,
    fileExists_writeFile _ tmpName bytes (fileExists_append_self w.fs tmpName [])⟩

/-- C5 witness: a URL serving the non-image byte `[0]` in the
environment whose decoder always fails; the call fails with `imageError`
and the temporary file `tmp1` is still on disk. -/
theorem C5_witness :
    nonImageEnv.fetch ("http://example.com/not-an-image") = Except.ok [0] ∧
    nonImageEnv.decode [0] = Except.error () ∧
    ((image_to_text nonImageEnv mockClient ("tmp1")
        ⟨"http://example.com/not-an-image"⟩ w0).1
      = Except.error PyExc.imageError ∧
    errorKind PyExc.imageError = ErrKind.DecodeError ∧
    fileExists ((image_to_text nonImageEnv mockClient ("tmp1")
        ⟨"http://example.com/not-an-image"⟩ w0).2.fs) ("tmp1") = true) :=
  ⟨rfl, rfl, C5_decode_error_file_remains nonImageEnv mockClient ("tmp1")
    ⟨"http://example.com/not-an-image"⟩ w0 [0] () rfl rfl⟩

/-- C6 counterexample: the claim says a `url` that is not a well-formed
resource reference fails with `ValidationError` before any fetch is
attempted.  At the concrete body `{"url": "not a url"}` the call instead
records a fetch attempt for the malformed string and fails with
`urlError`, not `requestValidationError`: pydantic's plain `url: str`
performs no well-formedness check. -/
theorem C6_malformed_url_counterexample :
    (post_image_to_text unreachableEnv mockClient ("tmp1")
        (some ("not a url")) w0).1 = Except.error PyExc.urlError ∧
    (post_image_to_text unreachableEnv mockClient ("tmp1")
        (some ("not a url")) w0).2.fetches = ["not a url"] :=
  ⟨rfl, rfl⟩

/-- C6 (amended): a *missing* `url` fails with `requestValidationError`
(the spec's `ValidationError`) before any fetch, leaving the world
untouched; a present but *malformed* `url` string, however, passes
validation and a fetch is attempted on it. -/
theorem C6_missing_url_validation (env : Env) (client : ModelClient)
    (tmpName : String) (w : World) :
    post_image_to_text env client tmpName none w
      = (Except.error PyExc.requestValidationError, w) ∧
    errorKind PyExc.requestValidationError = ErrKind.ValidationError ∧
    ∀ s : String, (post_image_to_text env client tmpName (some s) w).2.fetches
      = w.fetches ++ [s] := by
  exact ⟨rfl, rfl, fun s => image_to_text_fetches env client tmpName ⟨s⟩ w⟩

/-- C7: a failing provider call escapes as `googleError` — the spec's
`ExternalServiceError` — on both endpoints, never retried (the call trace
grows by exactly one invocation) and never swallowed (the result is that
error, not a success). -/
theorem C7_external_failure_propagates (env : Env) (client : ModelClient)
    (inputT : TextInput) (tmpName : String) (input : ImageInput) (w : World)
    (bytes : Bytes) (img : Img) (e1 e2 : Unit)
    (hT : client.generateText inputT.prompt = Except.error e1)
    (hF : env.fetch input.url = Except.ok bytes)
    (hD : env.decode bytes = Except.ok img)
    (hM : client.generateMultimodal captionInstruction img = Except.error e2) :
    ((post_generate_text client (some inputT.prompt) w).1
        = Except.error PyExc.googleError ∧
      (post_generate_text client (some inputT.prompt) w).2.calls
        = w.calls ++ [ClientCall.genText inputT.prompt]) ∧
    ((image_to_text env client tmpName input w).1
        = Except.error PyExc.googleError ∧
      (image_to_text env client tmpName input w).2.calls
        = w.calls ++ [ClientCall.genMulti captionInstruction img]) ∧
    errorKind PyExc.googleError = ErrKind.ExternalServiceError := by
  rw [post_generate_text_some, generate_text_error hT,
    image_to_text_model_error hF hD hM]
  exact ⟨⟨rfl, rfl⟩, ⟨rfl, rfl⟩, rfl⟩

/-- C7 witness: the always-failing provider under the otherwise healthy
environment; both endpoints surface `googleError` with exactly one
recorded client call each. -/
theorem C7_witness :
    failingClient.generateText ("Say hello") = Except.error () ∧
    okEnv.fetch ("http://example.com/cat.jpg") = Except.ok [1, 2, 3] ∧
    okEnv.decode [1, 2, 3] = Except.ok ⟨[1, 2, 3]⟩ ∧
    failingClient.generateMultimodal captionInstruction ⟨[1, 2, 3]⟩
      = Except.error () ∧
    (((post_generate_text failingClient (some ("Say hello")) w0).1
        = Except.error PyExc.googleError ∧
      (post_generate_text failingClient (some ("Say hello")) w0).2.calls
        = [ClientCall.genText ("Say hello")]) ∧
    ((image_to_text okEnv failingClient ("tmp1")
        ⟨"http://example.com/cat.jpg"⟩ w0).1
        = Except.error PyExc.googleError ∧
      (image_to_text okEnv failingClient ("tmp1")
        ⟨"http://example.com/cat.jpg"⟩ w0).2.calls
        = [ClientCall.genMulti captionInstruction ⟨[1, 2, 3]⟩]) ∧
    errorKind PyExc.googleError = ErrKind.ExternalServiceError) :=
  ⟨rfl, rfl, rfl, rfl,
    C7_external_failure_propagates okEnv failingClient ⟨"Say hello"⟩ ("tmp1")
      ⟨"http://example.com/cat.jpg"⟩ w0 [1, 2, 3] ⟨[1, 2, 3]⟩ () ()
      rfl rfl rfl rfl⟩

/-- C8: on the success path `image_to_text` records the fetch of the
request's URL, writes the fetched bytes into the temporary file, invokes
the multimodal operation exactly once with the fixed instruction
`"What is in this photo?"` (a constant independent of the request), and
returns the operation's text verbatim as `generated_text`. -/
theorem C8_image_pipeline (env : Env) (client : ModelClient)
    (tmpName : String) (input : ImageInput) (w : World) (bytes : Bytes)
    (img : Img) (t : String)
    (hF : env.fetch input.url = Except.ok bytes)
    (hD : env.decode bytes = Except.ok img)
    (hM : client.generateMultimodal captionInstruction img = Except.ok t) :
    (image_to_text env client tmpName input w).1 = Except.ok ⟨t⟩ ∧
    (image_to_text env client tmpName input w).2.fetches
      = w.fetches ++ [input.url] ∧
    (tmpName, bytes) ∈ (image_to_text env client tmpName input w).2.fs ∧
    (image_to_text env client tmpName input w).2.calls
      = w.calls ++ [ClientCall.genMulti captionInstruction img] ∧
    captionInstruction = "What is in this photo?" := by
  rw [image_to_text_success hF hD hM]
  refine ⟨rfl, rfl, ?_, rfl, rfl⟩
  unfold writeFile
  exact List.mem_map.mpr ⟨(tmpName, []), by simp, by simp⟩

/-- C8 witness: the spec's captioning scenario with concrete bytes
`[1, 2, 3]` and the mock caption `"A cat sitting on a chair."`. -/
theorem C8_witness :
    okEnv.fetch ("http://example.com/cat.jpg") = Except.ok [1, 2, 3] ∧
    okEnv.decode [1, 2, 3] = Except.ok ⟨[1, 2, 3]⟩ ∧
    mockClient.generateMultimodal captionInstruction ⟨[1, 2, 3]⟩
      = Except.ok ("A cat sitting on a chair.") ∧
    ((image_to_text okEnv mockClient ("tmp1")
        ⟨"http://example.com/cat.jpg"⟩ w0).1
      = Except.ok ⟨"A cat sitting on a chair."⟩ ∧
    (image_to_text okEnv mockClient ("tmp1")
        ⟨"http://example.com/cat.jpg"⟩ w0).2.fetches
      = ["http://example.com/cat.jpg"] ∧
    ("tmp1", [1, 2, 3]) ∈ (image_to_text okEnv mockClient ("tmp1")
        ⟨"http://example.com/cat.jpg"⟩ w0).2.fs ∧
    (image_to_text okEnv mockClient ("tmp1")
        ⟨"http://example.com/cat.jpg"⟩ w0).2.calls
      = [ClientCall.genMulti captionInstruction ⟨[1, 2, 3]⟩] ∧
    captionInstruction = "What is in this photo?") :=
  ⟨rfl, rfl, rfl,
    C8_image_pipeline okEnv mockClient ("tmp1")
      ⟨"http://example.com/cat.jpg"⟩ w0 [1, 2, 3] ⟨[1, 2, 3]⟩
      ("A cat sitting on a chair.") rfl rfl rfl⟩

/-- C9: `generate_text` touches no files and attempts no fetch — the
filesystem and fetch trace are returned unchanged for every request body
and every client — and its only effect is at most one client call
(exactly one, with the request's prompt, when the body validates). -/
theorem C9_generate_text_no_file_effect (client : ModelClient)
    (body : Option String) (w : World) :
    (post_generate_text client body w).2.fs = w.fs ∧
    (post_generate_text client body w).2.fetches = w.fetches ∧
    ((post_generate_text client body w).2.calls = w.calls ∨
      ∃ p : String, body = some p ∧
        (post_generate_text client body w).2.calls
          = w.calls ++ [ClientCall.genText p]) := by
  cases body with
  | none => exact ⟨rfl, rfl, Or.inl rfl⟩
  | some p =>
    rw [post_generate_text_some, generate_text_world]
    exact ⟨rfl, rfl, Or.inr ⟨p, rfl, rfl⟩⟩

/-- C10: the startup sequence of lines 7–8 is total — with the
`GENERATIVE_AI_KEY` environment variable unset (`none`) it still
produces the configured model, storing an absent credential — and the
missing key surfaces as an error only when a model call is made, while
with a key present the same call succeeds. -/
theorem C10_startup_without_key (provider : String → String) (p : String) :
    startup none
      = { model_name := "gemini-1.5-flash-latest", config := ⟨none⟩ } ∧
    generate_content (startup none) p provider
      = Except.error PyExc.googleError ∧
    errorKind PyExc.googleError = ErrKind.ExternalServiceError ∧
    ∀ k : String, generate_content (startup (some k)) p provider
      = Except.ok (provider p) :=
  ⟨rfl, rfl, rfl, fun _ => rfl⟩

end FastapiGemini
